import Mathlib

/-!
Verification of the `createProvider` wrapper (src/createProvider.ts) against
its specification.  The wrapper is embedded shallowly: the host framework's
provide/inject environment is an explicit association list threaded through
the setup routine, each call to a primitive (data derivation, `provide`,
render) appends an observable event to a trace, and a derivation that throws
is modelled by `Except.error`.
-/

namespace CreateProvider

/-- A JavaScript `Symbol`: an opaque identity allocated from a process-wide
fresh counter, carrying a description string.  Symbol equality is identity of
allocation, i.e. equality of `id`; the description plays no role in lookup. -/
structure Sym where
  id : Nat
  descr : String
deriving DecidableEq, Repr

/-- `Symbol(descr)` with an explicit allocation counter: returns the freshly
allocated symbol together with the advanced counter. -/
def mkSymbol (descr : String) (fresh : Nat) : Sym × Nat :=
  (⟨fresh, descr⟩, fresh + 1)

/-- The provide/inject environment a component instance sees: the chain of
(key, value) pairs provided by its ancestors, nearest ancestor first. -/
abbrev ProvideEnv (V : Type) := List (Sym × V)

/-- Vue `provide`: make `value` available under `key` to the descendant
subtree.  The new entry shadows any older entry with the same key. -/
def provide {V : Type} (key : Sym) (value : V) (env : ProvideEnv V) :
    ProvideEnv V :=
  (key, value) :: env

/-- Vue `inject`: look up the nearest provided value for `key`; `none` is the
explicit absent signal when no ancestor provided under that key. -/
def inject {V : Type} (key : Sym) : ProvideEnv V → Option V
  | [] => none
  | (k, v) :: rest => if k.id = key.id then some v else inject key rest

/-- The observable per-instance steps of the wrapper's setup routine. -/
inductive Event where
  | derive
  | register (key : Sym)
  | render
deriving DecidableEq, Repr

/-- Calling the caller-supplied data-derivation function `createProvided`:
the call appends a `derive` event; the call itself may fail
(`Except.error`), which models a thrown exception. -/
def callCreateProvided {P C V E : Type} (f : P → C → Except E V) (props : P)
    (ctx : C) (env : ProvideEnv V) (tr : List Event) :
    Except E V × ProvideEnv V × List Event :=
  (f props ctx, env, tr ++ [Event.derive])

/-- Calling `provide`: extends the environment and appends a `register`
event. -/
def callProvide {V : Type} (key : Sym) (value : V) (env : ProvideEnv V)
    (tr : List Event) : ProvideEnv V × List Event :=
  (provide key value env, tr ++ [Event.register key])

/-- Calling the caller-supplied render function with the bundle, props and
context; appends a `render` event. -/
def callRender {P C V R : Type} (g : V → P → C → R) (provided : V)
    (props : P) (ctx : C) (tr : List Event) : R × List Event :=
  (g provided props ctx, tr ++ [Event.render])

/-- A Vue component definition: an inert blueprint pairing the props spec
with the setup routine.  The setup routine threads the provide environment
and the event trace, and may fail (a thrown exception during setup). -/
structure Component (PS P C V R E : Type) where
  props : PS
  setup : P → C → ProvideEnv V → List Event →
    Except E R × ProvideEnv V × List Event

/-- Vue `defineComponent`: merely packages the options into a component
definition; it performs no per-instance work, so the ambient environment and
trace are untouched. -/
def defineComponent {PS P C V R E : Type} (props : PS)
    (setup : P → C → ProvideEnv V → List Event →
      Except E R × ProvideEnv V × List Event)
    (env : ProvideEnv V) (tr : List Event) :
    Component PS P C V R E × ProvideEnv V × List Event :=
  (⟨props, setup⟩, env, tr)

/-- The record returned by `createProvider`: the injection key together with
the assembled component definition. -/
structure Provider (PS P C V R E : Type) where
  injectionKey : Sym
  component : Component PS P C V R E

/-- `createProvider` (src/createProvider.ts): given an injection key, a props
spec, a data-derivation function `createProvided` and a render function
`parentRender`, assemble via `defineComponent` the parent component whose
setup derives the provided bundle, provides it under the key, and returns
the render output; return the key together with the component.  The factory
threads the ambient environment and trace so that any effect it performed at
call time would be visible. -/
def createProvider {PS P C V R E : Type} (injectionKey : Sym)
    (parentProps : PS)
    (createProvided : P → C → Except E V)
    (parentRender : V → P → C → R)
    (env : ProvideEnv V) (tr : List Event) :
    Provider PS P C V R E × ProvideEnv V × List Event :=
  let result := defineComponent parentProps
    (fun props ctx env0 tr0 =>
      match callCreateProvided createProvided props ctx env0 tr0 with
      | (Except.error e, env1, tr1) => (Except.error e, env1, tr1)
      | (Except.ok provided, env1, tr1) =>
        let p2 := callProvide injectionKey provided env1 tr1
        let p3 := callRender parentRender provided props ctx p2.2
        (Except.ok p3.1, p2.1, p3.2)) env tr
  (⟨injectionKey, result.1⟩, result.2.1, result.2.2)

/-- A concrete universe of prop values, enough for the spec's scenario. -/
inductive PropValue where
  | num (n : Int)
  | str (s : String)
deriving DecidableEq, Repr

/-- One entry of a props spec: the Vue prop options, here the optional
default value. -/
structure PropDescriptor where
  default : Option PropValue
deriving DecidableEq, Repr

/-- A concrete props spec: field name to descriptor. -/
abbrev PropsSpec := List (String × PropDescriptor)

/-- The fields supplied at instantiation. -/
abbrev PropOverrides := List (String × PropValue)

/-- The resolved props a setup routine observes; an unsupplied field with no
default resolves to `none` (undefined). -/
abbrev ResolvedProps := List (String × Option PropValue)

/-- Look up a field by name in an association list. -/
def lookupProp {A : Type} (name : String) : List (String × A) → Option A
  | [] => none
  | (k, v) :: rest => if k = name then some v else lookupProp name rest

/-- Modelled from the spec: the host framework resolves an instance's props
from the spec and the supplied fields — a supplied field overrides, an
omitted field falls back to the declared default (absent when no default).
(Vue itself, the host framework, is not part of this repository.) -/
def resolveProps (spec : PropsSpec) (supplied : PropOverrides) :
    ResolvedProps :=
  spec.map (fun entry =>
    (entry.1, match lookupProp entry.1 supplied with
              | some v => some v
              | none => entry.2.default))

/-- Modelled from the spec: host-framework instantiation of a component —
resolve the instance's props from the spec and the supplied fields, then run
the component's setup routine in the ambient provide environment. -/
def instantiate {C V R E : Type}
    (comp : Component PropsSpec ResolvedProps C V R E)
    (supplied : PropOverrides) (ctx : C) (env : ProvideEnv V)
    (tr : List Event) : Except E R × ProvideEnv V × List Event :=
  comp.setup (resolveProps comp.props supplied) ctx env tr

/-- A reactive ref holding an integer, as produced by the scenario's
derivation function `count => ref(count)`. -/
structure Ref where
  value : Int
deriving DecidableEq, Repr

/-- The scenario props spec: a single field `count` with default `0`. -/
def scenarioProps : PropsSpec :=
  [(("count"), ⟨some (PropValue.num 0)⟩)]

/-- The scenario derivation function: returns the bundle
`\x7b count: ref(count) \x7d` from the resolved `count` prop. -/
def scenarioCreateProvided (props : ResolvedProps) (_ctx : Unit) :
    Except String Ref :=
  match lookupProp ("count") props with
  | some (some (PropValue.num n)) => Except.ok ⟨n⟩
  | _ => Except.error ("count is not a number")

/-- The scenario render function: emits the current count. -/
def scenarioRender (provided : Ref) (_props : ResolvedProps) (_ctx : Unit) :
    Int :=
  provided.value

/-- The scenario provider: `createProvider` applied to a fresh symbol, the
scenario props spec, derivation and render functions. -/
def scenarioProvider :
    Provider PropsSpec ResolvedProps Unit Ref Int String :=
  (createProvider (mkSymbol ("provided") 0).1 scenarioProps
    scenarioCreateProvided scenarioRender [] []).1

/-- Helper: `inject` yields the absent signal whenever no entry of the
environment carries the key's identity. -/
theorem inject_eq_none_of_keys_ne {V : Type} (key : Sym)
    (env : ProvideEnv V) (h : ∀ p ∈ env, p.1.id ≠ key.id) :
    inject key env = none := by
  induction env with
  | nil => rfl
  | cons p rest ih =>
    have hp : p.1.id ≠ key.id := h p (List.mem_cons_self p rest)
    obtain ⟨k, v⟩ := p
    simp only [inject, if_neg hp]
    exact ih (fun q hq => h q (List.mem_cons_of_mem _ hq))

/-- C1: the bundle produced by the derivation function during a parent
instantiation and registered under the token is exactly the bundle a
descendant in the same subtree retrieves with that token (identity
round-trip through provide/inject). -/
theorem createProvider_provide_inject_roundtrip
    {PS P C V R E : Type} (key : Sym) (ps : PS)
    (f : P → C → Except E V) (g : V → P → C → R)
    (env : ProvideEnv V) (tr : List Event) (props : P) (ctx : C)
    (env0 : ProvideEnv V) (tr0 : List Event) (v : V)
    (h : f props ctx = Except.ok v) :
    ((createProvider key ps f g env tr).1.component.setup props ctx
        env0 tr0).2.1 = provide key v env0
    ∧ inject key ((createProvider key ps f g env tr).1.component.setup
        props ctx env0 tr0).2.1 = some v := by
  simp [createProvider, defineComponent, callCreateProvided, h, callProvide,
    callRender, provide, inject]

theorem createProvider_provide_inject_roundtrip_witness :
    ((createProvider ⟨0, ("k")⟩ () (fun (_ : Nat) (_ : Unit) => (Except.ok 7 : Except String Nat))
        (fun v _ _ => v) [] []).1.component.setup 3 () [] []).2.1
      = provide ⟨0, ("k")⟩ 7 []
    ∧ inject ⟨0, ("k")⟩ ((createProvider ⟨0, ("k")⟩ ()
        (fun (_ : Nat) (_ : Unit) => (Except.ok 7 : Except String Nat))
        (fun v _ _ => v) [] []).1.component.setup 3 () [] []).2.1
      = some 7 :=
  createProvider_provide_inject_roundtrip ⟨0, ("k")⟩ () _ _ [] [] 3 () [] []
    7 rfl

/-- C2: per instantiation, the steps happen in exactly this order — derive
the bundle from the instance's inputs, register it under the token, then
invoke the render function with the bundle and inputs. -/
theorem createProvider_setup_order
    {PS P C V R E : Type} (key : Sym) (ps : PS)
    (f : P → C → Except E V) (g : V → P → C → R)
    (env : ProvideEnv V) (tr : List Event) (props : P) (ctx : C)
    (env0 : ProvideEnv V) (tr0 : List Event) (v : V)
    (h : f props ctx = Except.ok v) :
    (createProvider key ps f g env tr).1.component.setup props ctx env0 tr0
      = (Except.ok (g v props ctx), provide key v env0,
         tr0 ++ [Event.derive, Event.register key, Event.render]) := by
  simp [createProvider, defineComponent, callCreateProvided, h, callProvide,
    callRender]

theorem createProvider_setup_order_witness :
    (createProvider ⟨1, ("a")⟩ ()
        (fun (p : Nat) (_ : Unit) => (Except.ok (p + 1) : Except String Nat))
        (fun v p _ => v * p) [] []).1.component.setup 2 () [] []
      = (Except.ok 6, provide ⟨1, ("a")⟩ 3 [],
         [Event.derive, Event.register ⟨1, ("a")⟩, Event.render]) :=
  createProvider_setup_order ⟨1, ("a")⟩ () _ _ [] [] 2 () [] [] 3 rfl

/-- C3: the factory returns the very same token that was passed in,
together with a component definition. -/
theorem createProvider_returns_same_token
    {PS P C V R E : Type} (key : Sym) (ps : PS)
    (f : P → C → Except E V) (g : V → P → C → R)
    (env : ProvideEnv V) (tr : List Event) :
    (createProvider key ps f g env tr).1.injectionKey = key := rfl

/-- C4: the render function is invoked with the data bundle plus the same
props object and the same context object that were passed to the
data-derivation function. -/
theorem createProvider_render_gets_same_inputs
    {PS P C V R E : Type} (key : Sym) (ps : PS)
    (f : P → C → Except E V) (g : V → P → C → R)
    (env : ProvideEnv V) (tr : List Event) (props : P) (ctx : C)
    (env0 : ProvideEnv V) (tr0 : List Event) (v : V)
    (h : f props ctx = Except.ok v) :
    ((createProvider key ps f g env tr).1.component.setup props ctx
        env0 tr0).1 = Except.ok (g v props ctx) := by
  simp [createProvider, defineComponent, callCreateProvided, h, callProvide,
    callRender]

theorem createProvider_render_gets_same_inputs_witness :
    ((createProvider ⟨2, ("b")⟩ ()
        (fun (p : Nat) (c : Unit) => (Except.ok (p, c) : Except String (Nat × Unit)))
        (fun v p c => (v, p, c)) [] []).1.component.setup 4 () [] []).1
      = Except.ok ((4, ()), 4, ()) :=
  createProvider_render_gets_same_inputs ⟨2, ("b")⟩ () _ _ [] [] 4 () [] []
    (4, ()) rfl

/-- C5: calling the factory has no side effect beyond constructing and
returning the definition — the ambient provide environment and the event
trace are untouched, so no derivation is called and no bundle is
registered at call time. -/
theorem createProvider_no_call_time_effects
    {PS P C V R E : Type} (key : Sym) (ps : PS)
    (f : P → C → Except E V) (g : V → P → C → R)
    (env : ProvideEnv V) (tr : List Event) :
    (createProvider key ps f g env tr).2 = (env, tr) := rfl

/-- C6: if the data-derivation function fails, the failure propagates
unchanged out of the setup routine: no bundle is registered (the
environment is untouched) and the render function is not invoked (no
register or render event follows the attempted derivation). -/
theorem createProvider_propagates_derivation_failure
    {PS P C V R E : Type} (key : Sym) (ps : PS)
    (f : P → C → Except E V) (g : V → P → C → R)
    (env : ProvideEnv V) (tr : List Event) (props : P) (ctx : C)
    (env0 : ProvideEnv V) (tr0 : List Event) (e : E)
    (h : f props ctx = Except.error e) :
    (createProvider key ps f g env tr).1.component.setup props ctx env0 tr0
      = (Except.error e, env0, tr0 ++ [Event.derive]) := by
  simp [createProvider, defineComponent, callCreateProvided, h]

theorem createProvider_propagates_derivation_failure_witness :
    (createProvider ⟨3, ("c")⟩ ()
        (fun (_ : Nat) (_ : Unit) => (Except.error ("boom") : Except String Nat))
        (fun v _ _ => v) [] []).1.component.setup 9 () [] []
      = (Except.error ("boom"), [], [Event.derive]) :=
  createProvider_propagates_derivation_failure ⟨3, ("c")⟩ () _ _ [] [] 9 ()
    [] [] ("boom") rfl

/-- C7: two independently created tokens are distinct even when created from
the same name string, and retrieval with token A in a subtree provisioned
only under token B yields the absent signal. -/
theorem fresh_tokens_never_collide {V : Type} (s t : String) (n : Nat)
    (env : ProvideEnv V)
    (h : ∀ p ∈ env, p.1.id = ((mkSymbol t (mkSymbol s n).2).1).id) :
    (mkSymbol s n).1 ≠ (mkSymbol t (mkSymbol s n).2).1
    ∧ inject (mkSymbol s n).1 env = none := by
  constructor
  · intro hc
    have hid : n = n + 1 := congrArg Sym.id hc
    omega
  · apply inject_eq_none_of_keys_ne
    intro p hp
    rw [h p hp]
    simp [mkSymbol]

theorem fresh_tokens_never_collide_witness :
    (mkSymbol ("dup") 0).1 ≠ (mkSymbol ("dup") (mkSymbol ("dup") 0).2).1
    ∧ inject (mkSymbol ("dup") 0).1
        [((mkSymbol ("dup") (mkSymbol ("dup") 0).2).1, (5 : Nat))] = none :=
  fresh_tokens_never_collide ("dup") ("dup") 0
    [((mkSymbol ("dup") (mkSymbol ("dup") 0).2).1, (5 : Nat))]
    (by simp)

/-- C8: a field spec with a declared default makes an omitted field resolve
to the default and a supplied field override it; in the scenario with spec
count default 0, derivation returning a ref of count and render emitting
the count, no overrides renders 0 and supplying count 5 renders 5. -/
theorem default_and_override_behavior :
    (∀ (name : String) (dv w : PropValue),
        resolveProps [(name, ⟨some dv⟩)] [] = [(name, some dv)]
      ∧ resolveProps [(name, ⟨some dv⟩)] [(name, w)] = [(name, some w)])
    ∧ (instantiate scenarioProvider.component [] () [] []).1 = Except.ok 0
    ∧ (instantiate scenarioProvider.component
        [(("count"), PropValue.num 5)] () [] []).1 = Except.ok 5 := by
  refine ⟨fun name dv w => ⟨?_, ?_⟩, ?_, ?_⟩
  · simp [resolveProps, lookupProp]
  · simp [resolveProps, lookupProp]
  · rfl
  · rfl

/-- C9: the derivation function's return value is registered under the
token without copying or transformation, and that identical bundle is what
the render function receives and what a descendant injects: all three are
one and the same value. -/
theorem createProvider_shares_single_bundle
    {PS P C V R E : Type} (key : Sym) (ps : PS)
    (f : P → C → Except E V) (g : V → P → C → R)
    (env : ProvideEnv V) (tr : List Event) (props : P) (ctx : C)
    (env0 : ProvideEnv V) (tr0 : List Event) (v : V)
    (h : f props ctx = Except.ok v) :
    let out := (createProvider key ps f g env tr).1.component.setup props
      ctx env0 tr0
    out.2.1 = (key, v) :: env0
    ∧ out.1 = Except.ok (g v props ctx)
    ∧ inject key out.2.1 = some v := by
  simp [createProvider, defineComponent, callCreateProvided, h, callProvide,
    callRender, provide, inject]

theorem createProvider_shares_single_bundle_witness :
    let out := (createProvider ⟨4, ("d")⟩ ()
      (fun (_ : Nat) (_ : Unit) => (Except.ok 11 : Except String Nat))
      (fun v p _ => v + p) [] []).1.component.setup 1 () [] []
    out.2.1 = (⟨4, ("d")⟩, 11) :: []
    ∧ out.1 = Except.ok 12
    ∧ inject ⟨4, ("d")⟩ out.2.1 = some 11 :=
  createProvider_shares_single_bundle ⟨4, ("d")⟩ () _ _ [] [] 1 () [] []
    11 rfl

/-- C10: the caller's input-field spec is passed to the component definition
unchanged, so the produced component resolves instance fields exactly as
the declared spec dictates. -/
theorem createProvider_passes_props_spec_unchanged
    {P C V R E : Type} (key : Sym) (ps : PropsSpec)
    (f : P → C → Except E V) (g : V → P → C → R)
    (env : ProvideEnv V) (tr : List Event) (supplied : PropOverrides) :
    (createProvider key ps f g env tr).1.component.props = ps
    ∧ resolveProps ((createProvider key ps f g env tr).1.component.props)
        supplied = resolveProps ps supplied :=
  ⟨rfl, rfl⟩

theorem createProvider_passes_props_spec_unchanged_witness :
    (createProvider ⟨5, ("e")⟩ scenarioProps
        (fun (_ : ResolvedProps) (_ : Unit) => (Except.ok 0 : Except Unit Nat))
        (fun v _ _ => v) [] []).1.component.props = scenarioProps
    ∧ resolveProps ((createProvider ⟨5, ("e")⟩ scenarioProps
        (fun (_ : ResolvedProps) (_ : Unit) => (Except.ok 0 : Except Unit Nat))
        (fun v _ _ => v) [] []).1.component.props) []
      = resolveProps scenarioProps [] :=
  createProvider_passes_props_spec_unchanged ⟨5, ("e")⟩ scenarioProps _ _
    [] [] []

end CreateProvider
